import Mathlib

/-!
Shallow embedding of the `requestWrapper` HTTP-client module of the
suicrux repository (the only file with testable logic, at
`src/unnamed/part_000`), together with theorems settling the frozen
claims about it.

The JavaScript module builds a request descriptor (`decorateRequest`,
`getHeaderDataDecoration`), issues it through `fetch`, inspects the
status (`checkStatus`, which evicts the local auth token on 401/403),
normalises the body (`parseJSON`) and catches any rejection, returning
the caught error value itself.

Modelling choices:
* JavaScript objects that flow through the lodash `_.merge` chain are
  modelled by the record `RequestOpts`; a missing key is `none`.  Only
  the keys that the module itself ever writes (`method`, `headers`,
  `body`) plus one representative extra transport option
  (`credentials`) are carried, which is enough to observe every merge
  the code performs and the fate of caller-supplied `options`.
* The token store (`getLocalToken` / `resetLocalToken`) is modelled by
  an `Option String` input and by counting invocations of
  `resetLocalToken` in the result of a run.
* `fetch` is modelled by a caller-supplied function from the resolved
  URL and built request to a `FetchOutcome`: either a settled
  `Response` (whose body-parsing outcome `jsonResult` is `none` when
  `res.json()` would reject) or a rejection carrying an error value.
* The regex test `/(http|https):\/\//.test(url)` is embedded by
  `regexHttpScan`, which tries to match the alternation at every
  position of the string, exactly as the unanchored regex engine does.
-/

namespace Api

/-- JSON values, the structured payloads and parsed bodies of the module. -/
inductive Json where
  | null : Json
  | bool (b : Bool) : Json
  | num (n : Int) : Json
  | str (s : String) : Json
  | arr (elems : List Json) : Json
  | obj (fields : List (String × Json)) : Json

/-- Serialisation of a JSON value, modelling `JSON.stringify` on plain data. -/
def jsonStringify : Json → String
  | Json.null => "null"
  | Json.bool true => "true"
  | Json.bool false => "false"
  | Json.num n => toString n
  | Json.str s => "\x22" ++ s ++ "\x22"
  | Json.arr elems =>
      "[" ++ String.intercalate "," (elems.attach.map fun e => jsonStringify e.1) ++ "]"
  | Json.obj fields =>
      "\x7b" ++
        String.intercalate ","
          (fields.attach.map fun f => "\x22" ++ f.1.1 ++ "\x22:" ++ jsonStringify f.1.2) ++
        "\x7d"
decreasing_by
  · simp_wf
    have h := List.sizeOf_lt_of_mem e.2
    omega
  · simp_wf
    obtain ⟨⟨k, v⟩, hf⟩ := f
    have h := List.sizeOf_lt_of_mem hf
    simp at h ⊢
    omega

/-- The `data` argument of a request: either plain structured data or a
`FormData` multipart payload (whose entries are irrelevant to the module). -/
inductive Payload where
  | json (j : Json) : Payload
  | formData (entries : List (String × String)) : Payload

/-- `JSON.stringify` applied to the `data` argument.  A `FormData` instance
has no enumerable own properties, so `JSON.stringify` turns it into the
two-character string of an empty object. -/
def stringifyPayload : Payload → String
  | Payload.json j => jsonStringify j
  | Payload.formData _ => "\x7b\x7d"

/-- The headers the module ever writes.  A `none` field is an absent key. -/
structure Headers where
  authorization : Option String
  contentType : Option String
deriving DecidableEq

def Headers.empty : Headers := ⟨none, none⟩

/-- A request-options object as it flows through the `_.merge` chain.
`credentials` stands for any extra transport option a caller could pass
in `options`; the module itself never writes it. -/
structure RequestOpts where
  method : Option String
  headers : Headers
  body : Option String
  credentials : Option String
deriving DecidableEq

def RequestOpts.empty : RequestOpts := ⟨none, Headers.empty, none, none⟩

/-- lodash `_.merge` on two header objects: keys present in the second
argument override the first, recursively (here the keys are leaves). -/
def mergeHeaders (a b : Headers) : Headers :=
  ⟨b.authorization <|> a.authorization, b.contentType <|> a.contentType⟩

/-- lodash `_.merge` on two request-options objects: a deep merge in which
keys present in the second argument override the first, and the nested
`headers` objects are merged key by key. -/
def mergeOpts (a b : RequestOpts) : RequestOpts :=
  ⟨b.method <|> a.method, mergeHeaders a.headers b.headers,
    b.body <|> a.body, b.credentials <|> a.credentials⟩

/-- JavaScript truthiness of the `getLocalToken()` result: `null` and the
empty string are falsy, every other string is truthy. -/
def tokenTruthy : Option String → Bool
  | none => false
  | some t => !(t == "")

/-- One attempt of the regex engine to match `(http|https):\/\/` at the
current position: the literal `http://` or the literal `https://` must
start here. -/
def matchAt : List Char → List Char → Bool
  | [], _ => true
  | _ :: _, [] => false
  | p :: ps, c :: cs => p == c && matchAt ps cs

/-- The unanchored regex test `/(http|https):\/\//.test(url)`: try the
alternation at every position of the subject. -/
def regexHttpScan : List Char → Bool
  | [] => false
  | c :: cs =>
      (matchAt ("http://".toList) (c :: cs) || matchAt ("https://".toList) (c :: cs)) ||
        regexHttpScan cs

/-- `isRequestToExternalResource` from `decorateRequest`:
the regex test applied to the request URL. -/
def isRequestToExternalResource (url : String) : Bool :=
  regexHttpScan url.toList

/-- Result object of `parseJSON`: the `ok` flag and, when present, the
`data` field holding the parsed body (`none` means the key is absent). -/
structure ResultObj where
  ok : Bool
  data : Option Json

/-- A settled HTTP response: its status, its platform `ok` flag, and the
outcome of `res.json()` (`none` when the body is not parseable JSON). -/
structure Response where
  status : Nat
  ok : Bool
  jsonResult : Option Json

/-- Outcome of the `fetch` call: a settled response or a rejection
carrying an error value. -/
inductive FetchOutcome where
  | success (resp : Response) : FetchOutcome
  | failure (err : String) : FetchOutcome

/-- The value a verb function hands back to its caller: a normalised
result object from `parseJSON`, or — through the final `.catch` — the
caught error value itself. -/
inductive ReturnValue where
  | res (r : ResultObj) : ReturnValue
  | err (e : String) : ReturnValue

/-- `getHeaderDataDecoration(data)`: the body decoration spreads
`JSON.stringify(data)` when `data` is truthy, and the content-type
decoration is empty exactly when `data instanceof FormData`; the two
object spreads touch disjoint keys, so they amount to a merge. -/
def getHeaderDataDecoration (data : Option Payload) : RequestOpts :=
  let requesDataDecoration : RequestOpts :=
    match data with
    | some d => { RequestOpts.empty with body := some (stringifyPayload d) }
    | none => RequestOpts.empty
  let requestContentTypeDecoration : RequestOpts :=
    match data with
    | some (Payload.formData _) => RequestOpts.empty
    | _ =>
        { RequestOpts.empty with
            headers := { Headers.empty with
              contentType := some "application/json; charset=UTF-8" } }
  mergeOpts requesDataDecoration requestContentTypeDecoration

/-- `decorateRequest({method, url, data, options, cb})`: resolves the URL
against `process.env.BASE_API`, builds the auth decoration from the local
token, and merges `defaults`, the auth decoration and the data decoration.
`options` and `cb` are received exactly as in the source — and, exactly as
in the source, never used. -/
def decorateRequest (baseAPI : String) (token : Option String) (method url : String)
    (data : Option Payload) (options : RequestOpts) (cb : RequestOpts → RequestOpts) :
    String × RequestOpts :=
  let defaults : RequestOpts := { RequestOpts.empty with method := some method }
  let isExternal := isRequestToExternalResource url
  let URL := if isExternal then url else baseAPI ++ url
  let requestAuthDecoration : RequestOpts :=
    if !isExternal && tokenTruthy token then
      { RequestOpts.empty with
          headers := { Headers.empty with
            authorization := some ("JWT " ++ token.getD "") } }
    else RequestOpts.empty
  let requestHeadersDataDecoration := getHeaderDataDecoration data
  let request :=
    mergeOpts (mergeOpts (mergeOpts RequestOpts.empty defaults) requestAuthDecoration)
      requestHeadersDataDecoration
  (URL, request)

/-- `checkStatus(response)`: walks the status if-chain, returns the
response unchanged, and additionally reports how many times
`resetLocalToken()` was invoked while doing so. -/
def checkStatus (response : Response) : Response × Nat :=
  let status := response.status
  if 200 ≤ status ∧ status < 300 then (response, 0)
  else if 300 ≤ status ∧ status < 400 then (response, 0)
  else if status = 400 then (response, 0)
  else if status = 403 ∨ status = 401 then (response, 1)
  else if status = 404 then (response, 0)
  else if 500 ≤ status then (response, 0)
  else (response, 0)

/-- `parseJSON(res)`: try `res.json()`; on failure answer `ok: true` with
an empty object for a 204, else a bare `ok: false`; on success attach the
parsed body and copy the platform `ok` flag. -/
def parseJSON (res : Response) : ResultObj :=
  match res.jsonResult with
  | none =>
      if res.status = 204 then { ok := true, data := some (Json.obj []) }
      else { ok := false, data := none }
  | some json =>
      if !res.ok then { ok := false, data := some json }
      else { ok := true, data := some json }

/-- `requestWrapper(method)` applied to its call arguments: decorate,
fetch, check status, parse; a rejection anywhere is caught and the error
value itself is returned.  The second component counts the
`resetLocalToken()` invocations of the run. -/
def requestWrapper (method : String) (fetchF : String → RequestOpts → FetchOutcome)
    (baseAPI : String) (token : Option String) (url : String) (data : Option Payload)
    (options : RequestOpts) (cb : RequestOpts → RequestOpts) : ReturnValue × Nat :=
  let dec := decorateRequest baseAPI token method url data options cb
  match fetchF dec.1 dec.2 with
  | FetchOutcome.failure err => (ReturnValue.err err, 0)
  | FetchOutcome.success resp =>
      let checked := checkStatus resp
      (ReturnValue.res (parseJSON checked.1), checked.2)

def get := requestWrapper "GET"
def post := requestWrapper "POST"
def put := requestWrapper "PUT"
def patch := requestWrapper "PATCH"
def del := requestWrapper "DELETE"

/-- The common type of the five exported verb functions. -/
abbrev VerbFn :=
  (String → RequestOpts → FetchOutcome) → String → Option String → String →
    Option Payload → RequestOpts → (RequestOpts → RequestOpts) → ReturnValue × Nat

/-- The claim-side reading of "contains the substring `pat`". -/
def containsSub (pat l : List Char) : Prop :=
  ∃ s t, l = s ++ pat ++ t

/-- The claim-side reading of "matches an absolute-URL scheme:// pattern":
a non-empty alphabetic scheme followed by the three characters `://`. -/
def isSchemeAbsoluteURL (url : String) : Bool :=
  let cs := url.toList
  let scheme := cs.takeWhile Char.isAlpha
  !scheme.isEmpty && matchAt ("://".toList) (cs.drop scheme.length)

/-- One regex-engine match attempt succeeds exactly when the pattern
literal starts at the current position. -/
lemma matchAt_iff (p l : List Char) : matchAt p l = true ↔ ∃ t, l = p ++ t := by
  induction p generalizing l with
  | nil => simp [matchAt]
  | cons a ps ih =>
    cases l with
    | nil => simp [matchAt]
    | cons c cs =>
      rw [show matchAt (a :: ps) (c :: cs) = (a == c && matchAt ps cs) from rfl]
      simp only [Bool.and_eq_true, beq_iff_eq, ih, List.cons_append, List.cons_eq_cons]
      constructor
      · rintro ⟨rfl, t, rfl⟩
        exact ⟨t, rfl, rfl⟩
      · rintro ⟨t, rfl, rfl⟩
        exact ⟨rfl, t, rfl⟩

/-- A non-empty pattern is not a substring of the empty string. -/
lemma containsSub_nil (pat : List Char) (hp : pat ≠ []) : ¬ containsSub pat [] := by
  rintro ⟨s, t, h⟩
  have hl := congrArg List.length h
  simp [List.length_append] at hl
  rcases pat with _ | ⟨a, ps⟩
  · exact hp rfl
  · simp at hl
    omega

/-- A pattern occurs in `c :: l` exactly when it starts right here or
occurs in `l`. -/
lemma containsSub_cons (pat : List Char) (c : Char) (l : List Char) :
    containsSub pat (c :: l) ↔ (∃ t, c :: l = pat ++ t) ∨ containsSub pat l := by
  constructor
  · rintro ⟨s, t, h⟩
    cases s with
    | nil =>
      left
      exact ⟨t, by simpa using h⟩
    | cons a s' =>
      right
      rw [List.cons_append, List.cons_append] at h
      injection h with h1 h2
      exact ⟨s', t, h2⟩
  · rintro (⟨t, h⟩ | ⟨s, t, h⟩)
    · exact ⟨[], t, by simpa using h⟩
    · exact ⟨c :: s, t, by simp [h]⟩

/-- The unanchored regex scan succeeds exactly when the subject contains
`http://` or `https://` as a substring. -/
lemma regexHttpScan_iff (l : List Char) :
    regexHttpScan l = true ↔
      (containsSub ("http://".toList) l ∨ containsSub ("https://".toList) l) := by
  induction l with
  | nil =>
    constructor
    · intro h
      simp [regexHttpScan] at h
    · rintro (h | h)
      · exact absurd h (containsSub_nil ("http://".toList) (by decide))
      · exact absurd h (containsSub_nil ("https://".toList) (by decide))
  | cons c cs ih =>
    simp only [regexHttpScan, Bool.or_eq_true, matchAt_iff, ih, containsSub_cons]
    tauto

/-- The external-resource test, characterised as substring containment. -/
lemma isRequestToExternalResource_iff (url : String) :
    isRequestToExternalResource url = true ↔
      (containsSub ("http://".toList) url.toList ∨
        containsSub ("https://".toList) url.toList) :=
  regexHttpScan_iff url.toList

/-- The status-check if-chain of the source invokes `resetLocalToken`
exactly on 401 and 403. -/
lemma checkStatus_count (resp : Response) :
    (checkStatus resp).2 = if resp.status = 401 ∨ resp.status = 403 then 1 else 0 := by
  simp only [checkStatus]
  split_ifs <;> first | rfl | omega

/-- `checkStatus` passes the response through unchanged. -/
lemma checkStatus_fst (resp : Response) : (checkStatus resp).1 = resp := by
  simp only [checkStatus]
  split_ifs <;> rfl

/-- Eviction count of a full wrapper run whose fetch settles with `resp`. -/
lemma requestWrapper_clear_count (method baseAPI : String) (token : Option String)
    (url : String) (data : Option Payload) (options : RequestOpts)
    (cb : RequestOpts → RequestOpts) (resp : Response) :
    (requestWrapper method (fun _ _ => FetchOutcome.success resp)
        baseAPI token url data options cb).2 =
      if resp.status = 401 ∨ resp.status = 403 then 1 else 0 :=
  checkStatus_count resp

/-- A wrapper run whose fetch settles normalises the body of that same
response and reports the eviction count of the status check. -/
lemma requestWrapper_success (method baseAPI : String) (token : Option String)
    (url : String) (data : Option Payload) (options : RequestOpts)
    (cb : RequestOpts → RequestOpts) (resp : Response) :
    requestWrapper method (fun _ _ => FetchOutcome.success resp)
        baseAPI token url data options cb =
      (ReturnValue.res (parseJSON resp), (checkStatus resp).2) := by
  show (ReturnValue.res (parseJSON (checkStatus resp).1), (checkStatus resp).2) = _
  rw [checkStatus_fst]

/-- The `data` field of the normalised result is present exactly when the
body parsed or the status was 204. -/
lemma parseJSON_data_isSome (resp : Response) :
    (parseJSON resp).data.isSome ↔ (resp.jsonResult.isSome ∨ resp.status = 204) := by
  rcases hj : resp.jsonResult with _ | j
  · by_cases hs : resp.status = 204 <;> simp [parseJSON, hj, hs]
  · cases hok : resp.ok <;> simp [parseJSON, hj, hok]

/-- A settled response whose body does not parse and whose status is not
204 normalises to a bare not-ok result without a data field. -/
lemma requestWrapper_success_parse (method baseAPI : String) (token : Option String)
    (url : String) (data : Option Payload) (options : RequestOpts)
    (cb : RequestOpts → RequestOpts) (resp : Response)
    (hj : resp.jsonResult = none) (hs : resp.status ≠ 204) :
    (requestWrapper method (fun _ _ => FetchOutcome.success resp)
        baseAPI token url data options cb).1 =
      ReturnValue.res { ok := false, data := none } := by
  rw [requestWrapper_success]
  simp [parseJSON, hj, hs]

/-- A settled response always normalises to a single result object whose
data field is present exactly when the body parsed or the status was
204. -/
lemma requestWrapper_success_result (method baseAPI : String) (token : Option String)
    (url : String) (data : Option Payload) (options : RequestOpts)
    (cb : RequestOpts → RequestOpts) (resp : Response) :
    ∃ r : ResultObj,
      (requestWrapper method (fun _ _ => FetchOutcome.success resp)
          baseAPI token url data options cb).1 = ReturnValue.res r ∧
      (r.data.isSome ↔ (resp.jsonResult.isSome ∨ resp.status = 204)) :=
  ⟨parseJSON resp, by rw [requestWrapper_success], parseJSON_data_isSome resp⟩

/-- C1: for every request issued through any of the five verb functions,
`resetLocalToken` (the TokenStore eviction) runs exactly once when the
settled response status is 401 or 403, and never runs for any other
status. -/
theorem c1_token_eviction (verb : VerbFn)
    (hverb : verb = get ∨ verb = post ∨ verb = put ∨ verb = patch ∨ verb = del)
    (baseAPI : String) (token : Option String) (url : String) (data : Option Payload)
    (options : RequestOpts) (cb : RequestOpts → RequestOpts) (resp : Response) :
    (verb (fun _ _ => FetchOutcome.success resp) baseAPI token url data options cb).2 =
      if resp.status = 401 ∨ resp.status = 403 then 1 else 0 := by
  rcases hverb with rfl | rfl | rfl | rfl | rfl <;>
    exact requestWrapper_clear_count _ _ _ _ _ _ _ resp

/-- Witness for C1: a 401 response evicts the token exactly once. -/
theorem c1_token_eviction_witness :
    (get (fun _ _ => FetchOutcome.success { status := 401, ok := false, jsonResult := none })
        "https://api.example.com" none "/login" none RequestOpts.empty (fun a => a)).2 = 1 := by
  have h := c1_token_eviction get (Or.inl rfl) "https://api.example.com" none "/login" none
    RequestOpts.empty (fun a => a) { status := 401, ok := false, jsonResult := none }
  simpa using h

/-- Counterexample to C2: when the transport rejects, the final catch
returns the caught error value itself, not a Result with ok false. -/
theorem c2_counterexample :
    (get (fun _ _ => FetchOutcome.failure "TypeError: Failed to fetch")
        "https://api.example.com" none "/users/1" none RequestOpts.empty (fun a => a)).1 =
      ReturnValue.err "TypeError: Failed to fetch" ∧
    (match (get (fun _ _ => FetchOutcome.failure "TypeError: Failed to fetch")
        "https://api.example.com" none "/users/1" none RequestOpts.empty (fun a => a)).1 with
      | ReturnValue.res _ => False
      | ReturnValue.err _ => True) :=
  ⟨rfl, trivial⟩

/-- C2 as amended: no exception escapes and every call returns exactly one
value; a parse failure is folded into an ok-false result, but a transport
failure is returned as the raw caught error value. -/
theorem c2_amended (verb : VerbFn)
    (hverb : verb = get ∨ verb = post ∨ verb = put ∨ verb = patch ∨ verb = del)
    (baseAPI : String) (token : Option String) (url : String) (data : Option Payload)
    (options : RequestOpts) (cb : RequestOpts → RequestOpts) :
    (∀ e, verb (fun _ _ => FetchOutcome.failure e) baseAPI token url data options cb =
        (ReturnValue.err e, 0)) ∧
    (∀ resp : Response, resp.jsonResult = none → resp.status ≠ 204 →
        (verb (fun _ _ => FetchOutcome.success resp) baseAPI token url data options cb).1 =
          ReturnValue.res { ok := false, data := none }) := by
  rcases hverb with rfl | rfl | rfl | rfl | rfl <;>
    exact ⟨fun e => rfl, fun resp hj hs =>
      requestWrapper_success_parse _ _ _ _ _ _ _ resp hj hs⟩

/-- Witness for C2 (amended): a 500 with an unparseable body folds into an
ok-false result with no data. -/
theorem c2_amended_witness :
    (get (fun _ _ => FetchOutcome.success { status := 500, ok := false, jsonResult := none })
        "https://api.example.com" none "/users/1" none RequestOpts.empty (fun a => a)).1 =
      ReturnValue.res { ok := false, data := none } :=
  (c2_amended get (Or.inl rfl) "https://api.example.com" none "/users/1" none
    RequestOpts.empty (fun a => a)).2 { status := 500, ok := false, jsonResult := none }
    rfl (by decide)

/-- Counterexample to C3: fields of the caller-supplied options object
never reach the issued request — the method it sets does not override the
default, and its extra transport option is dropped. -/
theorem c3_counterexample :
    ((decorateRequest "https://api.example.com" none "GET" "/users/1" none
        { RequestOpts.empty with method := some "HEAD", credentials := some "include" }
        (fun a => a)).2.method = some "GET") ∧
    ((decorateRequest "https://api.example.com" none "GET" "/users/1" none
        { RequestOpts.empty with method := some "HEAD", credentials := some "include" }
        (fun a => a)).2.credentials = none) :=
  ⟨rfl, rfl⟩

/-- C3 as amended: the issued request is the merge of the defaults, the
auth decoration and the payload decoration only; the options argument is
accepted but never merged, so the built request is independent of it and
no field of it appears in the issued request. -/
theorem c3_amended (baseAPI : String) (token : Option String) (method url : String)
    (data : Option Payload) (options opts2 : RequestOpts) (cb : RequestOpts → RequestOpts) :
    (decorateRequest baseAPI token method url data options cb =
        decorateRequest baseAPI token method url data opts2 cb) ∧
    ((decorateRequest baseAPI token method url data options cb).2.method = some method) ∧
    ((decorateRequest baseAPI token method url data options cb).2.credentials = none) := by
  refine ⟨rfl, ?_, ?_⟩ <;>
    · simp only [decorateRequest, mergeOpts, mergeHeaders, getHeaderDataDecoration]
      rcases data with _ | (j | fd) <;> split_ifs <;> rfl

/-- Counterexample to C4: with no data, a Content-Type header is still
attached; with a FormData payload, the body is still JSON-serialised
(to the two-character empty-object string). -/
theorem c4_counterexample :
    ((decorateRequest "https://api.example.com" none "GET" "/users/1" none RequestOpts.empty
        (fun a => a)).2.headers.contentType = some "application/json; charset=UTF-8") ∧
    ((decorateRequest "https://api.example.com" none "POST" "/upload"
        (some (Payload.formData [("file", "bytes")])) RequestOpts.empty
        (fun a => a)).2.body = some "\x7b\x7d") :=
  ⟨rfl, rfl⟩

/-- C4 as amended: a FormData payload gets no Content-Type but its body is
JSON.stringify of the FormData; a structured payload gets a JSON body and
the JSON Content-Type; absent data gets no body but the JSON Content-Type
is still set. -/
theorem c4_amended (baseAPI : String) (token : Option String) (method url : String)
    (data : Option Payload) (options : RequestOpts) (cb : RequestOpts → RequestOpts) :
    (∀ fd, data = some (Payload.formData fd) →
        (decorateRequest baseAPI token method url data options cb).2.headers.contentType =
            none ∧
        (decorateRequest baseAPI token method url data options cb).2.body =
          some "\x7b\x7d") ∧
    (∀ j, data = some (Payload.json j) →
        (decorateRequest baseAPI token method url data options cb).2.headers.contentType =
          some "application/json; charset=UTF-8" ∧
        (decorateRequest baseAPI token method url data options cb).2.body =
          some (jsonStringify j)) ∧
    (data = none →
        (decorateRequest baseAPI token method url data options cb).2.headers.contentType =
          some "application/json; charset=UTF-8" ∧
        (decorateRequest baseAPI token method url data options cb).2.body = none) := by
  refine ⟨fun fd hd => ?_, fun j hd => ?_, fun hd => ?_⟩ <;> subst hd <;>
    constructor <;>
    · simp only [decorateRequest, mergeOpts, mergeHeaders, getHeaderDataDecoration,
        stringifyPayload]
      split_ifs <;> rfl

/-- Witness for C4 (amended): absent data still gets the JSON
Content-Type and no body. -/
theorem c4_amended_witness :
    (decorateRequest "https://api.example.com" none "GET" "/users/1" none RequestOpts.empty
        (fun a => a)).2.headers.contentType = some "application/json; charset=UTF-8" ∧
    (decorateRequest "https://api.example.com" none "GET" "/users/1" none RequestOpts.empty
        (fun a => a)).2.body = none :=
  (c4_amended "https://api.example.com" none "GET" "/users/1" none RequestOpts.empty
    (fun a => a)).2.2 rfl

/-- Counterexample to C5: the returned shape varies — a parse failure off
204 yields an object with no data field, and a transport failure yields
the raw error value instead of a result object. -/
theorem c5_counterexample :
    (get (fun _ _ => FetchOutcome.success { status := 500, ok := false, jsonResult := none })
        "https://api.example.com" none "/health" none RequestOpts.empty (fun a => a)).1 =
      ReturnValue.res { ok := false, data := none } ∧
    (get (fun _ _ => FetchOutcome.failure "NetworkError when attempting to fetch resource")
        "https://api.example.com" none "/health" none RequestOpts.empty (fun a => a)).1 =
      ReturnValue.err "NetworkError when attempting to fetch resource" :=
  ⟨rfl, rfl⟩

/-- C5 as amended: on a settled response the caller always gets one result
object, whose data field is present exactly when the body parsed or the
status was 204; on a transport failure the caller gets the raw error
value. -/
theorem c5_amended (verb : VerbFn)
    (hverb : verb = get ∨ verb = post ∨ verb = put ∨ verb = patch ∨ verb = del)
    (baseAPI : String) (token : Option String) (url : String) (data : Option Payload)
    (options : RequestOpts) (cb : RequestOpts → RequestOpts) (resp : Response) :
    (∃ r : ResultObj,
        (verb (fun _ _ => FetchOutcome.success resp) baseAPI token url data options cb).1 =
          ReturnValue.res r ∧
        (r.data.isSome ↔ (resp.jsonResult.isSome ∨ resp.status = 204))) ∧
    (∀ e, (verb (fun _ _ => FetchOutcome.failure e) baseAPI token url data options cb).1 =
        ReturnValue.err e) := by
  rcases hverb with rfl | rfl | rfl | rfl | rfl <;>
    exact ⟨requestWrapper_success_result _ _ _ _ _ _ _ resp, fun e => rfl⟩

/-- Witness for C5 (amended): a transport failure surfaces as the raw
error value. -/
theorem c5_amended_witness :
    (get (fun _ _ => FetchOutcome.failure "aborted") "https://api.example.com" none "/x" none
        RequestOpts.empty (fun a => a)).1 = ReturnValue.err "aborted" :=
  (c5_amended get (Or.inl rfl) "https://api.example.com" none "/x" none RequestOpts.empty
    (fun a => a) { status := 200, ok := true, jsonResult := none }).2 "aborted"

/-- C6: body normalisation. Parse failure on a 204 yields ok with an empty
object; parse failure otherwise yields a bare not-ok; parse success copies
the platform ok flag and attaches the parsed body either way. -/
theorem c6_parse_normalization (resp : Response) :
    (resp.jsonResult = none → resp.status = 204 →
        parseJSON resp = { ok := true, data := some (Json.obj []) }) ∧
    (resp.jsonResult = none → resp.status ≠ 204 →
        parseJSON resp = { ok := false, data := none }) ∧
    (∀ j, resp.jsonResult = some j →
        parseJSON resp = { ok := resp.ok, data := some j }) := by
  refine ⟨?_, ?_, ?_⟩
  · intro hj hs
    simp [parseJSON, hj, hs]
  · intro hj hs
    simp [parseJSON, hj, hs]
  · intro j hj
    cases hok : resp.ok <;> simp [parseJSON, hj, hok]

/-- Witness for C6: a 204 with an unparseable (empty) body normalises to
ok with an empty object. -/
theorem c6_parse_normalization_witness :
    parseJSON { status := 204, ok := true, jsonResult := none } =
      { ok := true, data := some (Json.obj []) } :=
  (c6_parse_normalization { status := 204, ok := true, jsonResult := none }).1 rfl rfl

/-- Counterexample to C7: `ftp://files.example.com/f` matches the
scheme:// pattern of the claim, yet the resolved URL is not the input —
it is prefixed with the base API origin. -/
theorem c7_counterexample :
    isSchemeAbsoluteURL "ftp://files.example.com/f" = true ∧
    (decorateRequest "https://api.example.com" none "GET" "ftp://files.example.com/f" none
        RequestOpts.empty (fun a => a)).1 ≠ "ftp://files.example.com/f" := by
  constructor
  · rfl
  · decide

/-- C7 as amended: the resolved URL is the input unchanged exactly when
the input contains `http://` or `https://` anywhere; every other URL —
relative or with another scheme — is prefixed with the base API origin. -/
theorem c7_amended (baseAPI : String) (token : Option String) (method url : String)
    (data : Option Payload) (options : RequestOpts) (cb : RequestOpts → RequestOpts) :
    ((containsSub ("http://".toList) url.toList ∨
        containsSub ("https://".toList) url.toList) →
      (decorateRequest baseAPI token method url data options cb).1 = url) ∧
    (¬ (containsSub ("http://".toList) url.toList ∨
          containsSub ("https://".toList) url.toList) →
      (decorateRequest baseAPI token method url data options cb).1 = baseAPI ++ url) := by
  have hfst : (decorateRequest baseAPI token method url data options cb).1 =
      if isRequestToExternalResource url then url else baseAPI ++ url := rfl
  constructor
  · intro h
    have hb := (isRequestToExternalResource_iff url).mpr h
    rw [hfst, hb]
    simp
  · intro h
    cases hb : isRequestToExternalResource url with
    | false =>
      rw [hfst, hb]
      simp
    | true => exact absurd ((isRequestToExternalResource_iff url).mp hb) h

/-- Witness for C7 (amended): a relative URL is prefixed with the base
API origin. -/
theorem c7_amended_witness :
    (decorateRequest "https://api.example.com" none "GET" "/users/1" none RequestOpts.empty
        (fun a => a)).1 = "https://api.example.com" ++ "/users/1" := by
  refine (c7_amended "https://api.example.com" none "GET" "/users/1" none RequestOpts.empty
    (fun a => a)).2 ?_
  intro hc
  exact absurd ((isRequestToExternalResource_iff "/users/1").mpr hc) (by decide)

/-- C8: an internal request with a stored (non-empty) token carries
`Authorization: JWT token`; an external request never carries it, token
or not; with no stored token no Authorization header is attached and the
request is still built and issued. -/
theorem c8_auth_decoration (baseAPI : String) (token : Option String) (method url : String)
    (data : Option Payload) (options : RequestOpts) (cb : RequestOpts → RequestOpts) :
    (∀ t, token = some t → t ≠ "" → isRequestToExternalResource url = false →
        (decorateRequest baseAPI token method url data options cb).2.headers.authorization =
          some ("JWT " ++ t)) ∧
    (isRequestToExternalResource url = true →
        (decorateRequest baseAPI token method url data options cb).2.headers.authorization =
          none) ∧
    (token = none →
        (decorateRequest baseAPI token method url data options cb).2.headers.authorization =
          none) := by
  refine ⟨fun t ht hne hint => ?_, fun hext => ?_, fun ht => ?_⟩
  · subst ht
    have hbeq : (t == "") = false := beq_eq_false_iff_ne.mpr hne
    rcases data with _ | (j | fd) <;>
      simp [decorateRequest, mergeOpts, mergeHeaders, getHeaderDataDecoration,
        tokenTruthy, hint, hbeq, Headers.empty, RequestOpts.empty]
  · rcases data with _ | (j | fd) <;>
      simp [decorateRequest, mergeOpts, mergeHeaders, getHeaderDataDecoration,
        tokenTruthy, hext, Headers.empty, RequestOpts.empty]
  · subst ht
    rcases data with _ | (j | fd) <;>
      simp [decorateRequest, mergeOpts, mergeHeaders, getHeaderDataDecoration,
        tokenTruthy, Headers.empty, RequestOpts.empty]

/-- Witness for C8: a concrete internal request with a stored token. -/
theorem c8_auth_decoration_witness :
    (decorateRequest "https://api.example.com" (some "abc.def.ghi") "GET" "/users/1" none
        RequestOpts.empty (fun a => a)).2.headers.authorization =
      some ("JWT " ++ "abc.def.ghi") :=
  (c8_auth_decoration "https://api.example.com" (some "abc.def.ghi") "GET" "/users/1" none
    RequestOpts.empty (fun a => a)).1 "abc.def.ghi" rfl (by decide) (by decide)

/-- C9: the request-transform callback `cb` is dead: every verb call and
the request decoration itself give the same answer for any callback as
for the identity callback. -/
theorem c9_cb_never_applied (verb : VerbFn)
    (hverb : verb = get ∨ verb = post ∨ verb = put ∨ verb = patch ∨ verb = del)
    (fetchF : String → RequestOpts → FetchOutcome) (baseAPI method : String)
    (token : Option String) (url : String) (data : Option Payload)
    (options : RequestOpts) (cb : RequestOpts → RequestOpts) :
    (verb fetchF baseAPI token url data options cb =
        verb fetchF baseAPI token url data options (fun a => a)) ∧
    (decorateRequest baseAPI token method url data options cb =
        decorateRequest baseAPI token method url data options (fun a => a)) := by
  rcases hverb with rfl | rfl | rfl | rfl | rfl <;> exact ⟨rfl, rfl⟩

/-- Witness for C9: a callback that rewrites the method changes nothing. -/
theorem c9_cb_never_applied_witness :
    get (fun _ _ => FetchOutcome.failure "down") "https://api.example.com" (some "tok")
        "/users/1" none RequestOpts.empty (fun r => { r with method := some "TRACE" }) =
      get (fun _ _ => FetchOutcome.failure "down") "https://api.example.com" (some "tok")
        "/users/1" none RequestOpts.empty (fun a => a) :=
  (c9_cb_never_applied get (Or.inl rfl) (fun _ _ => FetchOutcome.failure "down")
    "https://api.example.com" "GET" (some "tok") "/users/1" none RequestOpts.empty
    (fun r => { r with method := some "TRACE" })).1

/-- C10: a URL is classified external exactly when it contains `http://`
or `https://` anywhere; consequently an `ftp://` URL is internal: it is
prefixed with the base API origin and receives the Authorization header
when a token is present. -/
theorem c10_external_classifier :
    (∀ url : String, isRequestToExternalResource url = true ↔
        (containsSub ("http://".toList) url.toList ∨
          containsSub ("https://".toList) url.toList)) ∧
    (∀ (baseAPI method : String) (data : Option Payload) (options : RequestOpts)
        (cb : RequestOpts → RequestOpts),
      (decorateRequest baseAPI (some "tok") method "ftp://files.example.com/f"
          data options cb).1 = baseAPI ++ "ftp://files.example.com/f" ∧
      (decorateRequest baseAPI (some "tok") method "ftp://files.example.com/f"
          data options cb).2.headers.authorization = some "JWT tok") := by
  refine ⟨isRequestToExternalResource_iff, ?_⟩
  intro baseAPI method data options cb
  constructor
  · rfl
  · rcases data with _ | (j | fd) <;> rfl

/-- Witness for C10: the classifier at a concrete `ftp://` URL. -/
theorem c10_external_classifier_witness :
    ¬ (containsSub ("http://".toList) ("ftp://files.example.com/f").toList ∨
        containsSub ("https://".toList) ("ftp://files.example.com/f").toList) := by
  intro hc
  have h := (c10_external_classifier.1 "ftp://files.example.com/f").mpr hc
  exact absurd h (by decide)

end Api
